import Mathlib

/-
Verification of the validation plugin framework in `rally/task/validation.py`.

The Python module is shallowly embedded below:
* dictionaries are association lists (`List (String × _)`); `dict.get` is
  `alistGet`, key membership is `alistHasKey`;
* Python values appearing in scenario configurations are modelled by `PyVal`
  (strings, integers, lists, `None`); Python truthiness is `PyVal.truthy`;
* a validation function that "returns nothing" is modelled as returning
  `Option ValidationResult` with `none` for the implicit-success path;
* raised exceptions are modelled with `Except`: a `ValueError` or an
  OpenStack client exception is an `Except.error` value.

Definitions are translated from the source; collaborators that live outside
the repository snapshot (`rally.common.validation`, `rally.consts`,
`rally.task.types`, the plugin meta machinery) are modelled from the spec and
marked as such in their doc comments.
-/

namespace RallyTaskValidation

/-- Modelled from the spec: `rally.common.validation.ValidationResult`
(not under src/) — a rule outcome is either valid (no payload, message empty)
or invalid carrying a human-readable message. -/
structure ValidationResult where
  is_valid : Bool
  msg : String
deriving Repr, DecidableEq

/-- Python values occurring in scenario configurations: strings, integers,
lists and `None`.  This is the value universe the embedded rules inspect. -/
inductive PyVal where
  | str : String → PyVal
  | int : Int → PyVal
  | list : List PyVal → PyVal
  | none : PyVal
deriving Repr

/-- Python truthiness for `PyVal`: empty strings, zero, empty lists and
`None` are falsy, everything else is truthy. -/
def PyVal.truthy : PyVal → Bool
  | .str s => !s.isEmpty
  | .int n => n != 0
  | .list l => !l.isEmpty
  | .none => false

mutual

/-- Structural equality of Python values (models `==`/`!=` on the values the
rules compare; only strings, ints, lists and `None` occur there). -/
def PyVal.beq : PyVal → PyVal → Bool
  | .str a, .str b => a == b
  | .int a, .int b => a == b
  | .list a, .list b => PyVal.beqList a b
  | .none, .none => true
  | _, _ => false

/-- Elementwise equality of Python lists. -/
def PyVal.beqList : List PyVal → List PyVal → Bool
  | [], [] => true
  | x :: xs, y :: ys => PyVal.beq x y && PyVal.beqList xs ys
  | _, _ => false

end

mutual

/-- Rendering of a Python value, modelling `repr` in the `%r` interpolations
of the error messages (dicts are rendered by `Command.render` below). -/
def PyVal.render : PyVal → String
  | .str s => "'" ++ s ++ "'"
  | .int n => toString n
  | .list l => "[" ++ String.intercalate ", " (PyVal.renderList l) ++ "]"
  | .none => "None"

/-- Renders every element of a Python list. -/
def PyVal.renderList : List PyVal → List String
  | [] => []
  | x :: xs => PyVal.render x :: PyVal.renderList xs

end

/-- Python `str()` of a value, modelling `%s` interpolations: a string
renders without quotes, other values as their `repr`. -/
def PyVal.pyStr : PyVal → String
  | .str s => s
  | v => PyVal.render v

/-- Python `d.get(k)` on a dict modelled as an association list. -/
def alistGet {β : Type} (d : List (String × β)) (k : String) : Option β :=
  (d.find? (fun p => p.1 == k)).map (fun p => p.2)

/-- Python `k in d` on a dict: key membership. -/
def alistHasKey {β : Type} (d : List (String × β)) (k : String) : Bool :=
  (d.find? (fun p => p.1 == k)).isSome

/-- Truthiness of `d.get(k)`: `None` (absent key) is falsy. -/
def pyGetTruthy (d : List (String × PyVal)) (k : String) : Bool :=
  ((alistGet d k).map PyVal.truthy).getD false

/-- Truthiness of an optional Python value (`None` for `Option.none`). -/
def pyTruthyOpt (v : Option PyVal) : Bool :=
  (v.map PyVal.truthy).getD false

/-! ### The legacy adapter `OldValidator` (validation.py lines 42-78)

The adapter is generic in the type `Cfg` of scenario configurations and the
type `Cl` of client-handle-sets: the wrapped function treats both opaquely.
`credential.clients()` is modelled as a field of `Credential`, and every
effectful call the adapter makes — deriving a client-handle-set and invoking
the wrapped function — is recorded in an event trace so that invocation
counts and ordering can be stated. -/

/-- A user credential; `clients` is the client-handle-set its `clients()`
capability returns. -/
structure Credential (Cl : Type) where
  clients : Cl
deriving Repr, DecidableEq

/-- One entry of the `users` list of a platform's credentials
(`user["credential"]`). -/
structure UserEntry (Cl : Type) where
  credential : Credential Cl
deriving Repr, DecidableEq

/-- The credentials a deployment holds for one platform:
`{"admin": Credential|None, "users": [...]}`. -/
structure PlatformCreds (Cl : Type) where
  admin : Option (Credential Cl)
  users : List (UserEntry Cl)
deriving Repr, DecidableEq

/-- The `credentials` mapping passed to `OldValidator.validate`
(platform name → platform credentials). -/
def CredMap (Cl : Type) : Type := List (String × PlatformCreds Cl)

/-- Lookup `credentials.get("openstack", {})`: the empty dict defaults to
credentials with no admin and no users. -/
def CredMap.get {Cl : Type} (m : CredMap Cl) (k : String) : PlatformCreds Cl :=
  ((m.find? (fun p => p.1 == k)).map (fun p => p.2)).getD ⟨Option.none, []⟩

/-- Events of the adapter's effectful calls: `clientsCall u` records
`user["credential"].clients()` for the credential `u`; `fnCall c` records an
invocation of the wrapped function with client-handle-set `c`
(`none` = the credential-less path). -/
inductive CallEvent (Cl : Type) where
  | clientsCall : Credential Cl → CallEvent Cl
  | fnCall : Option Cl → CallEvent Cl
deriving Repr, DecidableEq

/-- Source `OldValidator._run_fn` (lines 76-78): invoke the wrapped function and
treat an absent result (`None`, modelled by `Option.none`) as
`ValidationResult(True)` — the `or` in the source. The deployment object's
`get_credentials_for` is the credential mapping itself. -/
def OldValidator.run_fn {Cfg Cl : Type}
    (fn : Cfg → Option Cl → CredMap Cl → Option ValidationResult)
    (config : Cfg) (deployment : CredMap Cl) (clients : Option Cl) :
    ValidationResult :=
  (fn config clients deployment).getD ⟨true, ""⟩

/-- The `for clients in users:` loop of `OldValidator.validate`
(lines 68-72): invoke the wrapped function per client-handle-set, return the
first invalid result, `ValidationResult(True)` after a full pass.  The
second component is the trace of wrapped-function invocations. -/
def OldValidator.validateLoop {Cfg Cl : Type}
    (fn : Cfg → Option Cl → CredMap Cl → Option ValidationResult)
    (config : Cfg) (deployment : CredMap Cl) :
    List Cl → ValidationResult × List (CallEvent Cl)
  | [] => (⟨true, ""⟩, [])
  | c :: rest =>
    let result := OldValidator.run_fn fn config deployment (some c)
    if result.is_valid then
      ((OldValidator.validateLoop fn config deployment rest).1,
       CallEvent.fnCall (some c) ::
         (OldValidator.validateLoop fn config deployment rest).2)
    else
      (result, [CallEvent.fnCall (some c)])

/-- Source `OldValidator.validate` (lines 59-74) with its trace of effectful calls.
When the platform's `users` list is non-empty, the list comprehension
`[user["credential"].clients() for user in users]` derives every
client-handle-set first (one `clientsCall` per user, in order), then the
loop invokes the wrapped function per handle-set; with no users the wrapped
function is invoked once with `None` clients. -/
def OldValidator.validate {Cfg Cl : Type}
    (fn : Cfg → Option Cl → CredMap Cl → Option ValidationResult)
    (credentials : CredMap Cl) (config : Cfg) :
    ValidationResult × List (CallEvent Cl) :=
  let creds := CredMap.get credentials "openstack"
  let users := creds.users
  if users.isEmpty then
    (OldValidator.run_fn fn config credentials Option.none,
     [CallEvent.fnCall Option.none])
  else
    let clientsList := users.map (fun u => u.credential.clients)
    let r := OldValidator.validateLoop fn config credentials clientsList
    (r.1, users.map (fun u => CallEvent.clientsCall u.credential) ++ r.2)

/-! ### The attachment decorator `validator` (validation.py lines 81-105)

The decorator is generic in the type `F` of wrapped functions (it never
applies one — `F` is opaque), the type `A` of positional decorator
arguments, the type `K` of keyword-argument mappings and the type `P` of the
rest of the scenario class.  The plugin meta machinery
(`_meta_setdefault` / `_meta_get(...).append`) is not under src/ and is
modelled from the spec as an optional list field. -/

/-- One entry of a scenario's `validators` metadata:
`("old_validator", (fn,) + args, kwargs)` — the tuple `(fn,) + args` is
modelled as the pair of its head and tail. -/
abbrev VEntry (F A K : Type) : Type := String × (F × List A) × K

/-- A scenario class: its `validators` metadata (absent until first
attachment) plus everything else about the class, carried opaquely. -/
structure Scenario (F A K P : Type) where
  payload : P
  validators : Option (List (VEntry F A K))

/-- Modelled from the spec: `scenario._meta_setdefault("validators", [])` —
creates the validator list on first use. -/
def Scenario.metaSetdefault {F A K P : Type} (s : Scenario F A K P) :
    Scenario F A K P :=
  { s with validators := some (s.validators.getD []) }

/-- Modelled from the spec: `scenario._meta_get("validators").append(e)` —
appends one entry to the validator list. -/
def Scenario.metaAppend {F A K P : Type} (s : Scenario F A K P)
    (e : VEntry F A K) : Scenario F A K P :=
  { s with validators := some (s.validators.getD [] ++ [e]) }

/-- Source `wrap_scenario` (lines 97-101): append
`("old_validator", (fn,) + args, kwargs)` to the scenario's validator list
and return the scenario. -/
def wrap_scenario {F A K P : Type} (fn : F) (args : List A) (kwargs : K)
    (scenario : Scenario F A K P) : Scenario F A K P :=
  Scenario.metaAppend (Scenario.metaSetdefault scenario)
    ("old_validator", (fn, args), kwargs)

/-- Source `validator(fn)(*args, **kwargs)` (lines 81-105): the decorator factory;
applying the result to a scenario class attaches one entry and returns the
class.  The wrapped function is only stored, never applied (its type `F` is
opaque here). -/
def validator {F A K P : Type} (fn : F) (args : List A) (kwargs : K) :
    Scenario F A K P → Scenario F A K P :=
  fun scenario => wrap_scenario fn args kwargs scenario

/-! ### `_file_access_ok`, `check_command_dict` and `valid_command`
(validation.py lines 108-117, 144-181 and 184-214)

`os.access(os.path.expanduser(filename), mode)` is an external collaborator
and is passed in as the predicate `access`; `os.R_OK` is the constant 4. -/

/-- The constant `os.R_OK`. -/
def OS_R_OK : Nat := 4

/-- A command-specifying dict (key → Python value). -/
def Command : Type := List (String × PyVal)

/-- Rendering of a command dict, modelling the `%r % command` interpolation
in the `ValueError` messages. -/
def Command.render (c : Command) : String :=
  "\x7b" ++ String.intercalate ", "
    (c.map (fun p => "'" ++ p.1 ++ "': " ++ PyVal.render p.2)) ++ "\x7d"

/-- Source `_file_access_ok` (lines 108-117): an unset filename is invalid unless
the parameter is not required; an inaccessible file is invalid. -/
def _file_access_ok (access : PyVal → Nat → Bool) (filename : Option PyVal)
    (mode : Nat) (param_name : String) (required : Bool) : ValidationResult :=
  if !pyTruthyOpt filename then
    ⟨!required, "Parameter " ++ param_name ++ " required"⟩
  else if !access (filename.getD PyVal.none) mode then
    ⟨false, "Could not open " ++ PyVal.pyStr (filename.getD PyVal.none)
      ++ " with mode " ++ toString mode ++ " for parameter " ++ param_name⟩
  else
    ⟨true, ""⟩

/-- The keys `check_command_dict` accepts. -/
def commandAllowedKeys : List String :=
  ["script_file", "script_inline", "interpreter", "remote_path",
   "local_path", "command_args"]

/-- Source `check_command_dict` (lines 144-181): raise `ValueError`
(`Except.error`) on a structurally invalid command dict.  A non-dict value
(only `None` reaches this point through `valid_command`) is the
`isinstance` failure.  `set(command)` is modelled as the key list with
duplicates removed, in first-occurrence order. -/
def check_command_dict (command? : Option Command) : Except String Unit := do
  match command? with
  | Option.none => Except.error "Command must be a dictionary"
  | some command =>
    if pyGetTruthy command "interpreter" then
      if ((alistGet command "script_file").map PyVal.truthy).getD false then
        if alistHasKey command "script_inline" then
          Except.error ("Exactly one of script_inline or script_file with "
            ++ "interpreter is expected: " ++ Command.render command)
      let interpreter0 := (alistGet command "interpreter").getD PyVal.none
      let interpreter :=
        match interpreter0 with
        | PyVal.list l => l.getLast?.getD PyVal.none
        | v => v
      if pyGetTruthy command "local_path" &&
          !(match alistGet command "remote_path" with
            | some v => PyVal.beq v interpreter
            | Option.none => false) then
        Except.error ("When uploading an interpreter its path should be as "
          ++ "well specified as the `remote_path' string: "
          ++ Command.render command)
    else
      if !pyGetTruthy command "remote_path" then
        Except.error ("Supplied dict specifies no command to execute,"
          ++ " either interpreter or remote_path is required: "
          ++ Command.render command)
    let unexpected_keys :=
      ((command.map (fun p => p.1)).eraseDups).filter
        (fun k => !commandAllowedKeys.contains k)
    if !unexpected_keys.isEmpty then
      Except.error ("Unexpected command parameters: "
        ++ String.intercalate ", " unexpected_keys)

/-- The configuration slice `valid_command` reads: `config["args"]`, whose
values for command parameters are command dicts (a missing key is Python's
`None`). -/
structure CmdConfig where
  args : List (String × Command)

/-- Source `valid_command` (lines 184-214): a missing command with
`required=False` passes; a `ValueError` from `check_command_dict` is caught
and turned into an invalid outcome (never re-raised — the `Except.error`
constructor of the result is never produced); then the first of
`script_file`, `local_path` that is set is checked for readability. -/
def valid_command (access : PyVal → Nat → Bool) (config : CmdConfig)
    (param_name : String) (required : Bool) :
    Except String ValidationResult :=
  let command := alistGet config.args param_name
  if command.isNone && !required then
    Except.ok ⟨true, ""⟩
  else
    match check_command_dict command with
    | Except.error e => Except.ok ⟨false, e⟩
    | Except.ok _ =>
      let cmd := command.getD []
      match ["script_file", "local_path"].findSome? (fun key =>
          if pyGetTruthy cmd key then
            some (_file_access_ok access (alistGet cmd key) OS_R_OK
              (param_name ++ "." ++ key) true)
          else Option.none) with
      | some r => Except.ok r
      | Option.none => Except.ok ⟨true, ""⟩

/-! ### `required_services` (validation.py lines 314-341) -/

/-- Modelled from the spec: `rally.consts.Service.NOVA_NET` (rally/consts.py
is not under src/) — the identifier of the nova-network service; any fixed
identifier exhibits the same control flow. -/
def Service.NOVA_NET : String := "nova-network"

/-- One entry of `nova.services.list()`: a binary name and a status. -/
structure NovaService where
  binary : String
  status : String
deriving Repr, DecidableEq

/-- The client-handle-set slice `required_services` reads:
`clients.services()`, a mapping service-name → identifier whose values are
the available services. -/
structure SvcClients where
  services : List (String × String)
deriving Repr, DecidableEq

/-- The deployment slice `required_services` reads:
`deployment.get_credentials_for("openstack")["admin"].clients().nova()
.services.list()` (the `required_platform(admin=True)` decorator on
`OldValidator` guarantees the admin credential exists). -/
structure SvcDeployment where
  adminNovaServices : List NovaService
deriving Repr, DecidableEq

/-- The configuration slice `required_services` reads:
`config["context"]["api_versions"]`, service name → its api-version dict. -/
structure SvcConfig where
  context_api_versions : List (String × List (String × PyVal))
deriving Repr

/-- The failure message of `required_services` for a missing service
(the `_()` i18n wrapper is the identity). -/
def requiredServiceMsg (service : String) : String :=
  "'" ++ service ++ "' service is not available. Hint: If '" ++ service
    ++ "' service has non-default service_type, try to setup it via "
    ++ "'api_versions' context."

/-- Source `required_services` (lines 314-341): available services are the values
of `clients.services()`, extended — when nova-network is required — by one
copy of the nova-network identifier per enabled nova-network binary in the
admin's nova service list; the first required service that is neither
available nor declared via an `api_versions` override fails.  Falling off
the end returns `None` (implicit success). -/
def required_services (config : SvcConfig) (clients : SvcClients)
    (deployment : SvcDeployment) (required : List String) :
    Option ValidationResult :=
  let available_services0 := clients.services.map (fun p => p.2)
  let available_services :=
    if required.contains Service.NOVA_NET then
      available_services0 ++
        ((deployment.adminNovaServices.filter (fun s =>
            s.binary == Service.NOVA_NET && s.status == "enabled")).map
          (fun _ => Service.NOVA_NET))
    else available_services0
  required.findSome? (fun service =>
    let service_config :=
      (alistGet config.context_api_versions service).getD []
    if !available_services.contains service &&
        !(alistHasKey service_config "service_type" ||
          alistHasKey service_config "service_name") then
      some ⟨false, requiredServiceMsg service⟩
    else Option.none)

/-! ### `required_contexts` (validation.py lines 365-390) -/

/-- A context-name argument of `required_contexts`: a plain string or a
tuple ("at least one of"). -/
inductive CtxName where
  | name : String → CtxName
  | tup : List String → CtxName
deriving Repr, DecidableEq

/-- The configuration slice `required_contexts` reads:
`config["context"]` (only key membership is consulted). -/
structure CtxConfig where
  context : List (String × PyVal)
deriving Repr

/-- Source `required_contexts` (lines 365-390): a plain name is missing when it is
not a context key; a tuple is missing when none of its members is a context
key (`not set(name) & set(context)`), and is then rendered as
`'a or b'` — one pair of quotes around the ` or `-joined members, as the
source comment `# formatted string like: 'foo or bar or baz'` shows. -/
def required_contexts (config : CtxConfig) (context_names : List CtxName) :
    Option ValidationResult :=
  let context := config.context
  let missing_contexts := context_names.foldl (fun acc cn =>
    match cn with
    | CtxName.tup names =>
        if names.all (fun n => !alistHasKey context n) then
          acc ++ ["'" ++ String.intercalate " or " names ++ "'"]
        else acc
    | CtxName.name n =>
        if !alistHasKey context n then acc ++ [n] else acc) []
  if !missing_contexts.isEmpty then
    some ⟨false, "The following contexts are required but missing from "
      ++ "the benchmark configuration file: "
      ++ String.intercalate ", " missing_contexts⟩
  else Option.none

/-! ### `restricted_parameters` (validation.py lines 457-479) -/

/-- A value of the `args` mapping as seen by `restricted_parameters`: a
primitive (string) or a sub-mapping. -/
inductive RPVal where
  | prim : String → RPVal
  | sub : List (String × RPVal) → RPVal

/-- Python `x in v` for an `args` value: key membership for a sub-mapping,
substring test for a string (Python's `in` on `str`). -/
def RPVal.pyIn (param : String) : RPVal → Bool
  | RPVal.sub d => (d.find? (fun p => p.1 == param)).isSome
  | RPVal.prim s => param.isEmpty || (s.splitOn param).length != 1

/-- The `param_names` argument: the source wraps a bare string into a
one-element list (`if not isinstance(param_names, (list, tuple))`). -/
inductive ParamNames where
  | one : String → ParamNames
  | many : List String → ParamNames

/-- The configuration slice `restricted_parameters` reads: the `args`
sub-mapping (`config.get("args", {})`; an absent `args` key is the empty
mapping). -/
structure RPConfig where
  args : List (String × RPVal)

/-- The per-parameter membership test of `restricted_parameters`
(lines 471-473): with `subdict` the parameter is looked up in
`args.get(subdict, {})`, otherwise in `config.get("args", {})` itself. -/
def rpHit (config : RPConfig) (subdict : Option String)
    (param_name : String) : Bool :=
  match subdict with
  | some sk => ((alistGet config.args sk).map (RPVal.pyIn param_name)).getD false
  | Option.none => alistHasKey config.args param_name

/-- Source `restricted_parameters` (lines 457-479): collect the parameters present
in the target mapping; any hit is an invalid outcome listing them. -/
def restricted_parameters (config : RPConfig) (param_names : ParamNames)
    (subdict : Option String) : Option ValidationResult :=
  let pnames :=
    match param_names with
    | ParamNames.one s => [s]
    | ParamNames.many l => l
  let restricted_params := pnames.foldl (fun acc param_name =>
    if rpHit config subdict param_name then acc ++ [param_name] else acc) []
  if !restricted_params.isEmpty then
    some ⟨false, "You can't specify parameters '"
      ++ String.intercalate ", " restricted_params
      ++ "' in '" ++ subdict.getD "args" ++ "'"⟩
  else Option.none

/-! ### The flavor lookup chain (validation.py lines 260-311) -/

/-- The exception classes distinguished by `_get_validated_flavor`:
`nova_exc.NotFound`, `rally.exceptions.InvalidScenarioArgument`, and any
other exception (which no `except` clause of the rule catches). -/
inductive FlavorLookupExc where
  | notFound
  | invalidScenarioArgument
  | other : String → FlavorLookupExc
deriving Repr, DecidableEq

/-- A flavor record (`flavors_ctx.FlavorConfig` and the nova flavor object
are both carried as a name plus an id). -/
structure Flavor where
  name : String
  id : String
deriving Repr, DecidableEq

/-- The client-handle-set slice the flavor rules use:
`openstack_types.Flavor.transform` followed by
`clients.nova().flavors.get`, as one lookup that may raise. -/
structure FlavorClients where
  flavorLookup : PyVal → Except FlavorLookupExc Flavor

/-- The configuration slice the flavor rules read: `config["args"]` and the
`flavors` entry of `config["context"]` (`Option.none` when the `flavors`
key is absent). -/
structure FlavorCfg where
  args : List (String × PyVal)
  context_flavors : Option (List Flavor)

/-- Modelled from the spec: `rally.task.types.obj_from_name` (not under
src/) resolves a resource spec against a list of named resources and raises
`InvalidScenarioArgument` when it cannot find a unique match by name. -/
def obj_from_name (resource_config : PyVal) (resources : List Flavor) :
    Except FlavorLookupExc Flavor :=
  let wanted :=
    match resource_config with
    | PyVal.str s => s
    | v => PyVal.pyStr v
  match resources.filter (fun f => f.name == wanted) with
  | [f] => Except.ok f
  | _ => Except.error FlavorLookupExc.invalidScenarioArgument

/-- Source `_get_flavor_from_context` (lines 260-270): raise
`InvalidScenarioArgument` when no `flavors` context is declared, otherwise
resolve the spec against the context flavors and stamp the resulting
flavor's id. -/
def _get_flavor_from_context (config : FlavorCfg) (flavor_value : PyVal) :
    Except FlavorLookupExc (ValidationResult × Flavor) :=
  match config.context_flavors with
  | Option.none => Except.error FlavorLookupExc.invalidScenarioArgument
  | some flavors =>
    match obj_from_name flavor_value flavors with
    | Except.error e => Except.error e
    | Except.ok resource =>
      let flavor : Flavor :=
        { resource with id := "<context flavor: " ++ resource.name ++ ">" }
      Except.ok (⟨true, ""⟩, flavor)

/-- Source `_get_validated_flavor` (lines 273-289): an unset parameter is invalid;
a client lookup that raises `NotFound` or `InvalidScenarioArgument` falls
back to the `flavors` context, whose `InvalidScenarioArgument` alone is
swallowed (`except ...: pass`) before the `Flavor '...' not found` outcome;
any other exception propagates (`Except.error`). -/
def _get_validated_flavor (config : FlavorCfg) (clients : FlavorClients)
    (param_name : String) :
    Except String (ValidationResult × Option Flavor) :=
  let flavor_value := alistGet config.args param_name
  if !pyTruthyOpt flavor_value then
    Except.ok (⟨false, "Parameter " ++ param_name ++ " is not specified."⟩,
      Option.none)
  else
    let fv := flavor_value.getD PyVal.none
    match clients.flavorLookup fv with
    | Except.ok flavor => Except.ok (⟨true, ""⟩, some flavor)
    | Except.error FlavorLookupExc.notFound =>
      (match _get_flavor_from_context config fv with
       | Except.ok rf => Except.ok (rf.1, some rf.2)
       | Except.error FlavorLookupExc.invalidScenarioArgument =>
         Except.ok (⟨false, "Flavor '" ++ PyVal.pyStr fv ++ "' not found"⟩,
           Option.none)
       | Except.error FlavorLookupExc.notFound =>
         Except.error "nova_exc.NotFound"
       | Except.error (FlavorLookupExc.other s) => Except.error s)
    | Except.error FlavorLookupExc.invalidScenarioArgument =>
      (match _get_flavor_from_context config fv with
       | Except.ok rf => Except.ok (rf.1, some rf.2)
       | Except.error FlavorLookupExc.invalidScenarioArgument =>
         Except.ok (⟨false, "Flavor '" ++ PyVal.pyStr fv ++ "' not found"⟩,
           Option.none)
       | Except.error FlavorLookupExc.notFound =>
         Except.error "nova_exc.NotFound"
       | Except.error (FlavorLookupExc.other s) => Except.error s)
    | Except.error (FlavorLookupExc.other s) => Except.error s

/-- Source `flavor_exists` (lines 304-311): the first component of
`_get_validated_flavor`. -/
def flavor_exists (config : FlavorCfg) (clients : FlavorClients)
    (param_name : String) : Except String ValidationResult :=
  (_get_validated_flavor config clients param_name).map (fun p => p.1)

/-! ### `volume_type_exists` (validation.py lines 441-454) -/

/-- The client-handle-set slice `volume_type_exists` reads:
`clients.cinder().volume_types.list()`. -/
structure VTClients where
  volume_types : List String
deriving Repr, DecidableEq

/-- The configuration slice `volume_type_exists` reads: `config["args"]`. -/
structure VTConfig where
  args : List (String × PyVal)
deriving Repr

/-- The (fixed) failure message of `volume_type_exists`. -/
def volumeTypeMsg : String :=
  "Must have at least one volume type created "
    ++ "when specifying use of volume types."

/-- Source `volume_type_exists` (lines 441-454): when the named parameter is
truthy, fail iff the client's volume-type list is empty; otherwise fall
through (`None`, implicit success). -/
def volume_type_exists (config : VTConfig) (clients : VTClients)
    (param_name : String) : Option ValidationResult :=
  let val := alistGet config.args param_name
  if pyTruthyOpt val then
    if clients.volume_types.isEmpty then
      some ⟨false, volumeTypeMsg⟩
    else Option.none
  else Option.none

/-! ### Statement-side helper definitions (fragments of the rule bodies,
named so the theorems below can quantify over them) -/

/-- The per-service pass condition of `required_services`: the service is in
the (possibly nova-network-augmented) available list, or its `api_versions`
context entry declares `service_type` or `service_name`. -/
def servicePasses (config : SvcConfig) (clients : SvcClients)
    (deployment : SvcDeployment) (required : List String)
    (service : String) : Bool :=
  (if required.contains Service.NOVA_NET then
    clients.services.map (fun p => p.2) ++
      ((deployment.adminNovaServices.filter (fun s =>
          s.binary == Service.NOVA_NET && s.status == "enabled")).map
        (fun _ => Service.NOVA_NET))
  else clients.services.map (fun p => p.2)).contains service
  || (alistHasKey ((alistGet config.context_api_versions service).getD [])
        "service_type"
      || alistHasKey ((alistGet config.context_api_versions service).getD [])
          "service_name")

/-- The per-argument missing test of `required_contexts`: a plain name is
missing when not a context key, a tuple when none of its members is. -/
def ctxMissing (context : List (String × PyVal)) : CtxName → Bool
  | CtxName.tup names => names.all (fun n => !alistHasKey context n)
  | CtxName.name n => !alistHasKey context n

/-- How `required_contexts` renders a missing argument in its message. -/
def ctxRender : CtxName → String
  | CtxName.tup names => "'" ++ String.intercalate " or " names ++ "'"
  | CtxName.name n => n

/-- Substring occurrence on character lists (used to state that a claimed
rendering does not occur in a produced message). -/
def listIsInfixOf (needle : List Char) : List Char → Bool
  | [] => needle.isEmpty
  | c :: rest => needle.isPrefixOf (c :: rest) || listIsInfixOf needle rest

/-! ## Helper lemmas -/

/-- An `if not empty then failure else None` result is `None` exactly for
the empty list. -/
theorem ite_not_isEmpty_eq_none {α : Type} (L : List String) (x : α) :
    ((if !(L.isEmpty) then some x else Option.none) = Option.none) ↔ L = [] := by
  cases L <;> simp

/-- A fold that conditionally appends singletons is the filtered map. -/
theorem foldl_append_filter {α β : Type} (p : α → Bool) (g : α → β) :
    ∀ (l : List α) (init : List β),
      l.foldl (fun acc x => if p x then acc ++ [g x] else acc) init
        = init ++ (l.filter p).map g := by
  intro l
  induction l with
  | nil => intro init; simp
  | cons x xs ih =>
    intro init
    cases hp : p x <;>
      simp [List.foldl_cons, hp, ih, List.filter_cons, List.append_assoc]

/-- Closed form of the adapter's fan-out loop: the wrapped function is
invoked along the longest prefix of valid outcomes; the first invalid
outcome (the head of the `dropWhile`) is returned with its invocation as
the last trace event; with no invalid outcome the loop returns
`ValidationResult(True)` after one invocation per client-handle-set. -/
theorem validateLoop_eq {Cfg Cl : Type}
    (fn : Cfg → Option Cl → CredMap Cl → Option ValidationResult)
    (config : Cfg) (deployment : CredMap Cl) (cls : List Cl) :
    OldValidator.validateLoop fn config deployment cls =
      (match (cls.dropWhile (fun c =>
          (OldValidator.run_fn fn config deployment (some c)).is_valid)).head? with
       | Option.none =>
         (⟨true, ""⟩, cls.map (fun c => CallEvent.fnCall (some c)))
       | some c =>
         (OldValidator.run_fn fn config deployment (some c),
          (cls.takeWhile (fun c =>
            (OldValidator.run_fn fn config deployment (some c)).is_valid)).map
              (fun c => CallEvent.fnCall (some c))
            ++ [CallEvent.fnCall (some c)])) := by
  induction cls with
  | nil => simp [OldValidator.validateLoop]
  | cons c rest ih =>
    cases h : (OldValidator.run_fn fn config deployment (some c)).is_valid with
    | true =>
      simp only [OldValidator.validateLoop, h, if_true, ih,
        List.dropWhile_cons, List.takeWhile_cons]
      cases hd : (rest.dropWhile (fun c =>
          (OldValidator.run_fn fn config deployment (some c)).is_valid)).head? with
      | none => simp [hd]
      | some c' => simp [hd]
    | false =>
      simp only [OldValidator.validateLoop, h,
        List.dropWhile_cons, List.takeWhile_cons]
      simp

/-- Every event the fan-out loop records is a wrapped-function invocation. -/
theorem validateLoop_trace_fnCall {Cfg Cl : Type}
    (fn : Cfg → Option Cl → CredMap Cl → Option ValidationResult)
    (config : Cfg) (deployment : CredMap Cl) (cls : List Cl) :
    ∀ e ∈ (OldValidator.validateLoop fn config deployment cls).2,
      ∃ oc, e = CallEvent.fnCall oc := by
  induction cls with
  | nil => simp [OldValidator.validateLoop]
  | cons c rest ih =>
    intro e he
    cases h : (OldValidator.run_fn fn config deployment (some c)).is_valid with
    | true =>
      simp only [OldValidator.validateLoop, h, if_pos, List.mem_cons] at he
      rcases he with he | he
      · exact ⟨some c, he⟩
      · exact ih e he
    | false =>
      simp only [OldValidator.validateLoop, h, Bool.false_eq_true, if_neg,
        not_false_iff, List.mem_singleton] at he
      exact ⟨some c, he⟩

/-! ## Claims -/

/-- Claim C1 (confirmed).  Legacy adapter dispatch: with a non-empty
`users` list for the openstack platform, the wrapped function is invoked
once per derived client-handle-set in list order along the prefix of valid
outcomes; the first invalid outcome is returned at once and no later
credential's invocation happens (the trace ends at the first failing
invocation); if every invocation is valid the adapter returns
`ValidationResult(True)` after exactly one invocation per credential; with
no users the wrapped function is invoked exactly once with `None`
clients. -/
theorem old_validator_fan_out {Cfg Cl : Type}
    (fn : Cfg → Option Cl → CredMap Cl → Option ValidationResult)
    (credentials : CredMap Cl) (config : Cfg) :
    OldValidator.validate fn credentials config =
      (if (CredMap.get credentials "openstack").users.isEmpty then
        (OldValidator.run_fn fn config credentials Option.none,
         [CallEvent.fnCall Option.none])
      else
        match (((CredMap.get credentials "openstack").users.map
            (fun u => u.credential.clients)).dropWhile (fun c =>
              (OldValidator.run_fn fn config credentials (some c)).is_valid)).head? with
        | Option.none =>
          (⟨true, ""⟩,
           (CredMap.get credentials "openstack").users.map
               (fun u => CallEvent.clientsCall u.credential)
             ++ ((CredMap.get credentials "openstack").users.map
               (fun u => u.credential.clients)).map
                 (fun c => CallEvent.fnCall (some c)))
        | some c =>
          (OldValidator.run_fn fn config credentials (some c),
           (CredMap.get credentials "openstack").users.map
               (fun u => CallEvent.clientsCall u.credential)
             ++ ((((CredMap.get credentials "openstack").users.map
               (fun u => u.credential.clients)).takeWhile (fun c =>
                 (OldValidator.run_fn fn config credentials (some c)).is_valid)).map
                   (fun c => CallEvent.fnCall (some c))
               ++ [CallEvent.fnCall (some c)]))) := by
  cases h : (CredMap.get credentials "openstack").users.isEmpty with
  | true =>
    simp only [OldValidator.validate, h, if_pos]
  | false =>
    simp only [OldValidator.validate, h, Bool.false_eq_true, if_neg,
      not_false_iff, validateLoop_eq]
    cases hd : (((CredMap.get credentials "openstack").users.map
        (fun u => u.credential.clients)).dropWhile (fun c =>
          (OldValidator.run_fn fn config credentials (some c)).is_valid)).head? with
    | none => simp [hd]
    | some c => simp [hd]

/-- Claim C10 (confirmed).  In the adapter's trace, the `clients()`
derivation events of all user credentials, in list order, precede every
wrapped-function invocation: fail-fast short-circuits only invocations,
never client-handle-set derivation. -/
theorem old_validator_derives_all_clients {Cfg Cl : Type}
    (fn : Cfg → Option Cl → CredMap Cl → Option ValidationResult)
    (credentials : CredMap Cl) (config : Cfg) :
    ∃ rest,
      (OldValidator.validate fn credentials config).2 =
        ((CredMap.get credentials "openstack").users.map
          (fun u => CallEvent.clientsCall u.credential)) ++ rest
      ∧ ∀ e ∈ rest, ∃ oc, e = CallEvent.fnCall oc := by
  cases h : (CredMap.get credentials "openstack").users.isEmpty with
  | true =>
    refine ⟨[CallEvent.fnCall Option.none], ?_, ?_⟩
    · rw [List.isEmpty_iff] at h
      simp [OldValidator.validate, h]
    · intro e he
      simp only [List.mem_singleton] at he
      exact ⟨Option.none, he⟩
  | false =>
    refine ⟨(OldValidator.validateLoop fn config credentials
      ((CredMap.get credentials "openstack").users.map
        (fun u => u.credential.clients))).2, ?_, ?_⟩
    · simp [OldValidator.validate, h]
    · exact validateLoop_trace_fnCall fn config credentials _

/-- Claim C2 (confirmed).  Attachment decorator: folding N stacked
decorator applications (innermost first) over a scenario class leaves the
rest of the class unchanged, appends exactly N entries
`("old_validator", (fn,) + args, kwargs)` in application order (creating
the list on first use), and — the wrapped functions having an opaque
type `F` — never invokes them, storing them unevaluated in the entries. -/
theorem validator_attachment {F A K P : Type} (s : Scenario F A K P)
    (ds : List (F × List A × K)) :
    (ds.foldl (fun sc d => validator d.1 d.2.1 d.2.2 sc) s).payload = s.payload
    ∧ (ds.foldl (fun sc d => validator d.1 d.2.1 d.2.2 sc) s).validators =
        (if ds.isEmpty then s.validators
         else some (s.validators.getD [] ++
           ds.map (fun d => (("old_validator", (d.1, d.2.1), d.2.2) : VEntry F A K))))
    ∧ ((ds.foldl (fun sc d => validator d.1 d.2.1 d.2.2 sc) s).validators.getD []).length
        = (s.validators.getD []).length + ds.length := by
  induction ds generalizing s with
  | nil => simp
  | cons d ds ih =>
    have step : validator d.1 d.2.1 d.2.2 s =
        { s with validators := some (s.validators.getD [] ++
            [(("old_validator", (d.1, d.2.1), d.2.2) : VEntry F A K)]) } := by
      simp [validator, wrap_scenario, Scenario.metaAppend, Scenario.metaSetdefault]
    rcases ih (validator d.1 d.2.1 d.2.2 s) with ⟨hp, hv, hl⟩
    refine ⟨?_, ?_, ?_⟩
    · rw [List.foldl_cons, hp, step]
    · rw [List.foldl_cons, hv, step]
      cases ds with
      | nil => simp
      | cons d' ds' => simp [List.append_assoc]
    · rw [List.foldl_cons, hl, step]
      simp
      omega

/-- Claim C3 (confirmed).  Implicit-success convention of `_run_fn`: a
wrapped function returning nothing (`None`) yields `ValidationResult(True)`,
and the adapter's single-invocation helper is invalid exactly when the
function explicitly returned an invalid outcome. -/
theorem run_fn_implicit_success {Cfg Cl : Type}
    (fn : Cfg → Option Cl → CredMap Cl → Option ValidationResult)
    (config : Cfg) (deployment : CredMap Cl) (clients : Option Cl) :
    (fn config clients deployment = Option.none →
      OldValidator.run_fn fn config deployment clients = ⟨true, ""⟩)
    ∧ ((OldValidator.run_fn fn config deployment clients).is_valid = false ↔
        ∃ r, fn config clients deployment = some r ∧ r.is_valid = false) := by
  constructor
  · intro h
    simp [OldValidator.run_fn, h]
  · cases h : fn config clients deployment with
    | none => simp [OldValidator.run_fn, h]
    | some r => simp [OldValidator.run_fn, h]

/-- Counterexample for C4: on a command dict with both script sources under
an interpreter, `valid_command` does not abort with an error — it returns
an ordinary invalid outcome (`Except.ok`, not `Except.error`) carrying the
`ValueError` text, contradicting the claim that the structural error is
never downgraded to a soft invalid-outcome. -/
theorem valid_command_downgrade_cex :
    valid_command (fun _ _ => true)
      ⟨[("command",
        [("interpreter", PyVal.list [PyVal.str "/bin/sh"]),
         ("script_file", PyVal.str "a"),
         ("script_inline", PyVal.str "b")])]⟩
      "command" true
    = Except.ok ⟨false, "Exactly one of script_inline or script_file with "
        ++ "interpreter is expected: \x7b'interpreter': ['/bin/sh'], "
        ++ "'script_file': 'a', 'script_inline': 'b'\x7d"⟩ := rfl

/-- Claim C4 (corrected).  A mapping with only `remote_path` set passes;
a structurally invalid command mapping makes `check_command_dict` raise a
`ValueError`, but `valid_command` catches it and converts it into a soft
invalid outcome carrying the error text — the error does not abort the
run. -/
theorem valid_command_soft_failure :
    (∀ (access : PyVal → Nat → Bool) (config : CmdConfig)
        (param_name : String) (required : Bool) (e : String),
      check_command_dict (alistGet config.args param_name) = Except.error e →
      ((alistGet config.args param_name).isSome || required) = true →
      valid_command access config param_name required = Except.ok ⟨false, e⟩)
    ∧ check_command_dict (some [("remote_path", PyVal.str "/bin/x")])
        = Except.ok ()
    ∧ valid_command (fun _ _ => true)
        ⟨[("command", [("remote_path", PyVal.str "/bin/x")])]⟩ "command" true
        = Except.ok ⟨true, ""⟩ := by
  refine ⟨?_, rfl, rfl⟩
  intro access config param_name required e he hr
  have hcond : ((alistGet config.args param_name).isNone && !required) = false := by
    cases hc : alistGet config.args param_name with
    | none =>
      simp only [hc, Option.isSome_none, Bool.false_or] at hr
      simp [hr]
    | some c => simp
  simp only [valid_command, hcond, Bool.false_eq_true, if_false, he]

/-- Witness for C4: the `ValueError` for an unexpected key `foo` surfaces
as a soft invalid outcome of `valid_command`. -/
theorem valid_command_soft_failure_witness :
    valid_command (fun _ _ => true)
      ⟨[("command", [("foo", PyVal.int 1), ("remote_path", PyVal.str "/x")])]⟩
      "command" true
    = Except.ok ⟨false, "Unexpected command parameters: foo"⟩ :=
  valid_command_soft_failure.1 (fun _ _ => true)
    ⟨[("command", [("foo", PyVal.int 1), ("remote_path", PyVal.str "/x")])]⟩
    "command" true "Unexpected command parameters: foo" rfl rfl

/-- Counterexample for C6: with arguments `"net", ("a", "b")` and context
`{"net": 1}`, the failure message renders the missing tuple as `'a or b'`
(one pair of quotes around the joined group) and not as `'a' or 'b'` as the
claim states — the claimed rendering does not occur in the message. -/
theorem required_contexts_quoting_cex :
    required_contexts ⟨[("net", PyVal.int 1)]⟩
      [CtxName.name "net", CtxName.tup ["a", "b"]]
    = some ⟨false, "The following contexts are required but missing from "
        ++ "the benchmark configuration file: 'a or b'"⟩
    ∧ listIsInfixOf ("'a' or 'b'").data
        ("The following contexts are required but missing from "
          ++ "the benchmark configuration file: 'a or b'").data = false :=
  ⟨rfl, by decide⟩

/-- Claim C6 (corrected).  `required_contexts` passes iff every plain name
is a context key and every tuple has at least one member present; on
failure it lists all missing names/groups comma-joined, a missing tuple
being rendered as `'a or b'` — the whole ` or `-joined group in a single
pair of quotes. -/
theorem required_contexts_characterization (config : CtxConfig)
    (context_names : List CtxName) :
    required_contexts config context_names =
      (if ((context_names.filter (ctxMissing config.context)).map ctxRender).isEmpty
       then Option.none
       else some ⟨false, "The following contexts are required but missing from "
         ++ "the benchmark configuration file: "
         ++ String.intercalate ", "
             ((context_names.filter (ctxMissing config.context)).map ctxRender)⟩)
    ∧ (required_contexts config context_names = Option.none ↔
        ∀ cn ∈ context_names, ctxMissing config.context cn = false) := by
  have hfun : ∀ (acc : List String) (cn : CtxName),
      (match cn with
       | CtxName.tup names =>
         if names.all (fun n => !alistHasKey config.context n) then
           acc ++ ["'" ++ String.intercalate " or " names ++ "'"]
         else acc
       | CtxName.name n =>
         if !alistHasKey config.context n then acc ++ [n] else acc)
      = if ctxMissing config.context cn then acc ++ [ctxRender cn] else acc := by
    intro acc cn
    cases cn <;> rfl
  have heq : required_contexts config context_names =
      (if !(((context_names.filter (ctxMissing config.context)).map ctxRender).isEmpty)
       then some ⟨false, "The following contexts are required but missing from "
         ++ "the benchmark configuration file: "
         ++ String.intercalate ", "
             ((context_names.filter (ctxMissing config.context)).map ctxRender)⟩
       else Option.none) := by
    simp only [required_contexts, hfun,
      foldl_append_filter (ctxMissing config.context) ctxRender context_names [],
      List.nil_append]
  constructor
  · rw [heq]
    cases h : ((context_names.filter (ctxMissing config.context)).map ctxRender).isEmpty <;>
      simp [h]
  · rw [heq, ite_not_isEmpty_eq_none]
    simp [List.map_eq_nil_iff, List.filter_eq_nil_iff, Bool.not_eq_true]

/-- Witness for C6: a missing plain name and present tuple member produce
the comma-joined listing through the characterization. -/
theorem required_contexts_characterization_witness :
    required_contexts ⟨[("a", PyVal.int 1)]⟩
      [CtxName.name "net", CtxName.tup ["a", "b"]]
    = some ⟨false, "The following contexts are required but missing from "
        ++ "the benchmark configuration file: net"⟩ :=
  ((required_contexts_characterization ⟨[("a", PyVal.int 1)]⟩
    [CtxName.name "net", CtxName.tup ["a", "b"]]).1).trans rfl

/-- Claim C7 (confirmed).  `restricted_parameters` returns an invalid
outcome iff some listed parameter hits the target mapping — the `args`
mapping itself, or `args[subdict]` when `subdict` is given (`rpHit`) — and
the failure message lists exactly the offending parameters found, in
order; a bare-string argument behaves as its one-element list. -/
theorem restricted_parameters_characterization (config : RPConfig)
    (subdict : Option String) (ps : List String) :
    (restricted_parameters config (ParamNames.many ps) subdict =
      (if (ps.filter (rpHit config subdict)).isEmpty then Option.none
       else some ⟨false, "You can't specify parameters '"
         ++ String.intercalate ", " (ps.filter (rpHit config subdict))
         ++ "' in '" ++ subdict.getD "args" ++ "'"⟩))
    ∧ (restricted_parameters config (ParamNames.many ps) subdict = Option.none ↔
        ∀ p ∈ ps, rpHit config subdict p = false)
    ∧ (∀ n, restricted_parameters config (ParamNames.one n) subdict
        = restricted_parameters config (ParamNames.many [n]) subdict) := by
  have heq : restricted_parameters config (ParamNames.many ps) subdict =
      (if !((ps.filter (rpHit config subdict)).isEmpty)
       then some ⟨false, "You can't specify parameters '"
         ++ String.intercalate ", " (ps.filter (rpHit config subdict))
         ++ "' in '" ++ subdict.getD "args" ++ "'"⟩
       else Option.none) := by
    simp only [restricted_parameters,
      foldl_append_filter (rpHit config subdict) (fun x => x) ps [],
      List.nil_append, List.map_id_fun', id_eq]
  refine ⟨?_, ?_, ?_⟩
  · rw [heq]
    cases h : (ps.filter (rpHit config subdict)).isEmpty <;> simp [h]
  · rw [heq, ite_not_isEmpty_eq_none]
    simp [List.filter_eq_nil_iff, Bool.not_eq_true]
  · intro n
    rfl

/-- Witness for C7: `restricted_parameters(["name"])` on config
`{"args": {"name": "x"}}` fails listing `name`. -/
theorem restricted_parameters_characterization_witness :
    restricted_parameters ⟨[("name", RPVal.prim "x")]⟩
      (ParamNames.many ["name"]) Option.none
    = some ⟨false, "You can't specify parameters 'name' in 'args'"⟩ :=
  ((restricted_parameters_characterization ⟨[("name", RPVal.prim "x")]⟩
    Option.none ["name"]).1).trans rfl

/-- Counterexample for C9: with `volume_type` set to `"vt1"` and a client
whose volume-type list does not contain `"vt1"` (so the spec is not
resolvable via the client lookup), the rule nevertheless passes —
contradicting the claimed pass condition and message. -/
theorem volume_type_exists_cex :
    (["other"].contains "vt1" = false)
    ∧ volume_type_exists ⟨[("volume_type", PyVal.str "vt1")]⟩ ⟨["other"]⟩
        "volume_type" = Option.none := ⟨rfl, rfl⟩

/-- Claim C9 (corrected).  `volume_type_exists` never resolves the spec:
when the named parameter is truthy it passes iff the client's volume-type
list is non-empty, and on an empty list returns the fixed message
`Must have at least one volume type created when specifying use of volume
types.` (which mentions neither "not found" nor the raw spec); with the
parameter unset or falsy it passes. -/
theorem volume_type_exists_characterization (config : VTConfig)
    (clients : VTClients) (param_name : String) :
    volume_type_exists config clients param_name =
      (if pyTruthyOpt (alistGet config.args param_name)
          && clients.volume_types.isEmpty then
        some ⟨false, volumeTypeMsg⟩
      else Option.none)
    ∧ (volume_type_exists config clients param_name = Option.none ↔
        (pyTruthyOpt (alistGet config.args param_name) = false
          ∨ clients.volume_types ≠ [])) := by
  constructor
  · cases ht : pyTruthyOpt (alistGet config.args param_name) <;>
      cases he : clients.volume_types.isEmpty <;>
        simp [volume_type_exists, ht, he]
  · cases ht : pyTruthyOpt (alistGet config.args param_name) <;>
      cases he : clients.volume_types.isEmpty <;>
        simp_all [volume_type_exists, List.isEmpty_eq_true]

/-- Witness for C9: the empty volume-type list yields the fixed message. -/
theorem volume_type_exists_characterization_witness :
    volume_type_exists ⟨[("volume_type", PyVal.str "vt1")]⟩ ⟨[]⟩ "volume_type"
    = some ⟨false, volumeTypeMsg⟩ :=
  ((volume_type_exists_characterization ⟨[("volume_type", PyVal.str "vt1")]⟩
    ⟨[]⟩ "volume_type").1).trans rfl

/-- Helper: `obj_from_name` only ever raises `InvalidScenarioArgument`. -/
theorem obj_from_name_error_shape (fv : PyVal) (resources : List Flavor)
    (e : FlavorLookupExc) :
    obj_from_name fv resources = Except.error e →
    e = FlavorLookupExc.invalidScenarioArgument := by
  intro h
  simp only [obj_from_name] at h
  split at h
  · cases h
  · cases h
    rfl

/-- The context fallback either resolves the flavor or raises
`InvalidScenarioArgument` — never any other exception. -/
theorem get_flavor_from_context_shape (config : FlavorCfg) (fv : PyVal) :
    (∃ rf, _get_flavor_from_context config fv = Except.ok rf)
    ∨ _get_flavor_from_context config fv
        = Except.error FlavorLookupExc.invalidScenarioArgument := by
  rcases hcf : config.context_flavors with _ | flavors
  · right
    simp only [_get_flavor_from_context, hcf]
  · cases hm : obj_from_name fv flavors with
    | error e =>
      right
      have he := obj_from_name_error_shape fv flavors e hm
      subst he
      simp only [_get_flavor_from_context, hcf, hm]
    | ok resource =>
      left
      refine ⟨(⟨true, ""⟩,
        { resource with id := "<context flavor: " ++ resource.name ++ ">" }), ?_⟩
      simp only [_get_flavor_from_context, hcf, hm]

/-- Claim C8 (confirmed).  When the client-side flavor lookup raises the
not-found condition, `flavor_exists` falls back to the declared `flavors`
context: a successful fallback yields its outcome, a failed fallback yields
the invalid outcome `Flavor '<raw spec>' not found`, and in either case the
rule returns an outcome (`Except.ok`) — the not-found exception never
propagates out of the rule. -/
theorem flavor_exists_not_found_handled (config : FlavorCfg)
    (clients : FlavorClients) (param_name : String) (fv : PyVal) :
    alistGet config.args param_name = some fv →
    PyVal.truthy fv = true →
    clients.flavorLookup fv = Except.error FlavorLookupExc.notFound →
    (∃ r, flavor_exists config clients param_name = Except.ok r)
    ∧ (_get_flavor_from_context config fv
          = Except.error FlavorLookupExc.invalidScenarioArgument →
        flavor_exists config clients param_name
          = Except.ok ⟨false, "Flavor '" ++ PyVal.pyStr fv ++ "' not found"⟩)
    ∧ (∀ rf, _get_flavor_from_context config fv = Except.ok rf →
        flavor_exists config clients param_name = Except.ok rf.1) := by
  intro hget htr hlook
  have hbase : flavor_exists config clients param_name =
      (match _get_flavor_from_context config fv with
       | Except.ok rf => Except.ok rf.1
       | Except.error FlavorLookupExc.invalidScenarioArgument =>
         Except.ok ⟨false, "Flavor '" ++ PyVal.pyStr fv ++ "' not found"⟩
       | Except.error FlavorLookupExc.notFound =>
         Except.error "nova_exc.NotFound"
       | Except.error (FlavorLookupExc.other s) => Except.error s) := by
    unfold flavor_exists _get_validated_flavor
    rw [hget]
    cases hm : _get_flavor_from_context config fv with
    | ok rf => simp [pyTruthyOpt, hm, htr, hlook, Except.map]
    | error e => cases e <;> simp [pyTruthyOpt, hm, htr, hlook, Except.map]
  refine ⟨?_, ?_, ?_⟩
  · rcases get_flavor_from_context_shape config fv with ⟨rf, hok⟩ | herr
    · exact ⟨rf.1, by rw [hbase, hok]⟩
    · exact ⟨⟨false, "Flavor '" ++ PyVal.pyStr fv ++ "' not found"⟩,
        by rw [hbase, herr]⟩
  · intro hctx
    rw [hbase, hctx]
  · intro rf hctx
    rw [hbase, hctx]

/-- Witness for C8: a not-found lookup with no `flavors` context yields the
`Flavor 'm1' not found` outcome, not an error. -/
theorem flavor_exists_not_found_handled_witness :
    flavor_exists ⟨[("flavor", PyVal.str "m1")], Option.none⟩
      ⟨fun _ => Except.error FlavorLookupExc.notFound⟩ "flavor"
    = Except.ok ⟨false, "Flavor 'm1' not found"⟩ :=
  (flavor_exists_not_found_handled ⟨[("flavor", PyVal.str "m1")], Option.none⟩
    ⟨fun _ => Except.error FlavorLookupExc.notFound⟩ "flavor" (PyVal.str "m1")
    rfl rfl rfl).2.1 rfl

/-- Helper: `List.contains` is membership for string lists. -/
theorem contains_iff_mem_str {l : List String} {a : String} :
    l.contains a = true ↔ a ∈ l := by
  simp [List.contains_iff_exists_mem_beq]

/-- The loop of `required_services` tests exactly `servicePasses` per
required service (de Morgan on the two negated conditions). -/
theorem required_services_eq (config : SvcConfig) (clients : SvcClients)
    (deployment : SvcDeployment) (required : List String) :
    required_services config clients deployment required =
      required.findSome? (fun service =>
        if !servicePasses config clients deployment required service then
          some ⟨false, requiredServiceMsg service⟩
        else Option.none) := by
  have hb : ∀ (a b : Bool) (x : ValidationResult),
      (if !a && !b then some x else Option.none)
        = (if !(a || b) then some x else Option.none) := by
    intro a b x
    cases a <;> cases b <;> rfl
  simp only [required_services, servicePasses]
  congr 1
  funext service
  exact hb _ _ _

/-- Counterexample for C5: requiring the nova-network service with an empty
`clients.services()` and no `api_versions` override — so the claimed pass
condition is false — nevertheless passes, because the admin's nova service
list shows an enabled nova-network binary. -/
theorem required_services_nova_net_cex :
    ¬("nova-network" ∈ (SvcClients.mk []).services.map (fun p => p.2)
      ∨ alistHasKey ((alistGet (SvcConfig.mk []).context_api_versions
          "nova-network").getD []) "service_type" = true
      ∨ alistHasKey ((alistGet (SvcConfig.mk []).context_api_versions
          "nova-network").getD []) "service_name" = true)
    ∧ required_services ⟨[]⟩ ⟨[]⟩ ⟨[⟨"nova-network", "enabled"⟩]⟩
        ["nova-network"] = Option.none := by
  refine ⟨?_, rfl⟩
  intro h
  rcases h with h | h | h
  · simp at h
  · simp [alistGet, alistHasKey] at h
  · simp [alistGet, alistHasKey] at h

/-- Claim C5 (corrected).  `required_services` passes iff every required
service is among the values of `clients.services()`, or is the nova-network
identifier with an enabled nova-network binary in the admin's nova service
list (a special case the original claim omits), or has an `api_versions`
context entry declaring `service_type`/`service_name`; otherwise it returns
an invalid outcome whose message names a missing service together with the
`api_versions` remediation hint. -/
theorem required_services_pass_iff (config : SvcConfig)
    (clients : SvcClients) (deployment : SvcDeployment)
    (required : List String) :
    (required_services config clients deployment required = Option.none ↔
      ∀ s ∈ required, servicePasses config clients deployment required s = true)
    ∧ (∀ r, required_services config clients deployment required = some r →
        r.is_valid = false ∧ ∃ s ∈ required,
          servicePasses config clients deployment required s = false
          ∧ r.msg = requiredServiceMsg s)
    ∧ (∀ s, servicePasses config clients deployment required s = true ↔
        (s ∈ clients.services.map (fun p => p.2)
         ∨ (Service.NOVA_NET ∈ required ∧ s = Service.NOVA_NET
            ∧ ∃ svc ∈ deployment.adminNovaServices,
                svc.binary = Service.NOVA_NET ∧ svc.status = "enabled")
         ∨ alistHasKey ((alistGet config.context_api_versions s).getD [])
             "service_type" = true
         ∨ alistHasKey ((alistGet config.context_api_versions s).getD [])
             "service_name" = true)) := by
  refine ⟨?_, ?_, ?_⟩
  · rw [required_services_eq, List.findSome?_eq_none_iff]
    refine forall_congr' (fun s => imp_congr_right (fun _ => ?_))
    cases h : servicePasses config clients deployment required s <;> simp [h]
  · intro r hr
    rw [required_services_eq] at hr
    obtain ⟨s, hs, hbody⟩ := List.exists_of_findSome?_eq_some hr
    cases h : servicePasses config clients deployment required s with
    | true => rw [h] at hbody; simp at hbody
    | false =>
      rw [h] at hbody
      simp only [Bool.not_false, if_true, Option.some.injEq] at hbody
      subst hbody
      exact ⟨rfl, s, hs, h, rfl⟩
  · intro s
    unfold servicePasses
    cases h : required.contains Service.NOVA_NET with
    | false =>
      have hnot : ¬(Service.NOVA_NET ∈ required) := by
        rw [← contains_iff_mem_str, h]
        simp
      simp only [Bool.false_eq_true, if_false, Bool.or_eq_true,
        contains_iff_mem_str]
      constructor
      · rintro (hm | hk)
        · exact Or.inl hm
        · rcases hk with hk | hk
          · exact Or.inr (Or.inr (Or.inl hk))
          · exact Or.inr (Or.inr (Or.inr hk))
      · rintro (hm | ⟨hreq, _⟩ | hk | hk)
        · exact Or.inl hm
        · exact absurd hreq hnot
        · exact Or.inr (Or.inl hk)
        · exact Or.inr (Or.inr hk)
    | true =>
      have hreq : Service.NOVA_NET ∈ required := by
        rw [← contains_iff_mem_str, h]
      simp only [if_true, Bool.or_eq_true, contains_iff_mem_str,
        List.mem_append, List.mem_map, List.mem_filter, Bool.and_eq_true,
        beq_iff_eq]
      constructor
      · rintro ((hm | ⟨svc, ⟨hsvc, hb, hst⟩, heq⟩) | hk)
        · exact Or.inl hm
        · exact Or.inr (Or.inl ⟨hreq, heq.symm, svc, hsvc, hb, hst⟩)
        · rcases hk with hk | hk
          · exact Or.inr (Or.inr (Or.inl hk))
          · exact Or.inr (Or.inr (Or.inr hk))
      · rintro (hm | ⟨_, heq, svc, hsvc, hb, hst⟩ | hk | hk)
        · exact Or.inl (Or.inl hm)
        · exact Or.inl (Or.inr ⟨svc, ⟨hsvc, hb, hst⟩, heq.symm⟩)
        · exact Or.inr (Or.inl hk)
        · exact Or.inr (Or.inr hk)

/-- Witness for C5: a required `image` service with no availability and no
override produces the invalid outcome naming it with the hint. -/
theorem required_services_pass_iff_witness :
    (⟨false, requiredServiceMsg "image"⟩ : ValidationResult).is_valid = false
    ∧ ∃ s ∈ ["image"], servicePasses ⟨[]⟩ ⟨[]⟩ ⟨[]⟩ ["image"] s = false
        ∧ (⟨false, requiredServiceMsg "image"⟩ : ValidationResult).msg
            = requiredServiceMsg s :=
  (required_services_pass_iff ⟨[]⟩ ⟨[]⟩ ⟨[]⟩ ["image"]).2.1
    ⟨false, requiredServiceMsg "image"⟩ rfl

/-- Witness for C10: with two credentials of which the first fails, both
derivation events precede the single invocation in the trace. -/
theorem old_validator_derives_all_clients_witness :
    ∃ rest,
      (OldValidator.validate
        (fun (_ : Nat) (cl : Option Nat) (_ : CredMap Nat) =>
          if cl == some 1 then some ⟨false, "bad"⟩ else Option.none)
        [("openstack", ⟨Option.none, [⟨⟨1⟩⟩, ⟨⟨2⟩⟩]⟩)] 0).2 =
        ((CredMap.get [("openstack",
            (⟨Option.none, [⟨⟨1⟩⟩, ⟨⟨2⟩⟩]⟩ : PlatformCreds Nat))]
          "openstack").users.map
            (fun u => CallEvent.clientsCall u.credential)) ++ rest
      ∧ ∀ e ∈ rest, ∃ oc, e = CallEvent.fnCall oc :=
  old_validator_derives_all_clients
    (fun (_ : Nat) (cl : Option Nat) (_ : CredMap Nat) =>
      if cl == some 1 then some ⟨false, "bad"⟩ else Option.none)
    [("openstack", ⟨Option.none, [⟨⟨1⟩⟩, ⟨⟨2⟩⟩]⟩)] 0

/-- Witness for C3: a wrapped function that returns nothing produces a
valid outcome through `_run_fn`. -/
theorem run_fn_implicit_success_witness :
    OldValidator.run_fn
      (fun (_ : Nat) (_ : Option Nat) (_ : CredMap Nat) =>
        (Option.none : Option ValidationResult))
      0 [] Option.none = ⟨true, ""⟩ :=
  (run_fn_implicit_success
    (fun (_ : Nat) (_ : Option Nat) (_ : CredMap Nat) =>
      (Option.none : Option ValidationResult))
    0 [] Option.none).1 rfl

end RallyTaskValidation
